import Mathlib

/-!
Verification of the DockerHound orchestrator (`src/dockerhound/__init__.py`):
a shallow embedding of its readiness-polling detector, configuration
validation, resource cleanup and run-mode step sequence, with theorems about
the behaviours the specification describes.
-/

namespace Dockerhound

/-- Character-list version of "p is an initial segment of s". -/
def listPrefixOf : List Char → List Char → Bool
  | [], _ => true
  | _ :: _, [] => false
  | a :: p, b :: s => a == b && listPrefixOf p s

/-- `listInfixOf p s`: `p` occurs as a contiguous run inside `s`. -/
def listInfixOf (p : List Char) : List Char → Bool
  | [] => p.isEmpty
  | b :: s => listPrefixOf p (b :: s) || listInfixOf p s

/-- Python's `pattern in logs` substring test, as `strContains logs pattern`. -/
def strContains (s pat : String) : Bool :=
  listInfixOf pat.data s.data

/-- Result of one `<backend> logs --since <ts> <name>` fetch inside
`ContainerManager.wait_for_ready`: either the subprocess call raised an
exception (caught by the loop's catch-all handler), or it completed with a
return code, captured stdout and captured stderr. -/
inductive FetchResult where
  | exn : FetchResult
  | completed (returncode : Int) (stdout : String) (stderr : String) : FetchResult
  deriving DecidableEq

/-- Outcome of one iteration of the `while True` body of
`ContainerManager.wait_for_ready` (`__init__.py` lines 271-303). -/
inductive TickOutcome where
  | ready
  | failedLogs (logs : String)
  | fatal (stderr : String) (returncode : Int)
  | waiting
  deriving DecidableEq

/-- One tick of `wait_for_ready`, translated from the loop body: when the
fetch returns code 0, the success marker is tested on the captured stdout
first, then the failure markers; a non-zero return code reports stderr and
exits; an exception is swallowed and the poll continues. -/
def waitTick (readyPattern : String) (errorPatterns : List String) :
    FetchResult → TickOutcome
  | FetchResult.exn => TickOutcome.waiting
  | FetchResult.completed rc out err =>
    if rc = 0 then
      if strContains out readyPattern then TickOutcome.ready
      else if errorPatterns.any (fun p => strContains out p) then
        TickOutcome.failedLogs out
      else TickOutcome.waiting
    else TickOutcome.fatal err rc

/-- How `wait_for_ready` can leave its loop: `break` on the success marker,
or `sys.exit(1)` carrying either the dumped log text (failure marker hit) or
the fetch's stderr and return code (non-zero fetch exit). -/
inductive LoopResult where
  | ready
  | exitOnLogs (logs : String)
  | exitOnFetch (stderr : String) (returncode : Int)
  deriving DecidableEq

/-- `wait_for_ready` run over a finite schedule of fetch results: `some r`
when the loop leaves within the schedule, `none` when every scheduled tick
keeps it polling.  The code has no timeout or deadline, so `none` on a
schedule of any length means the loop is still running after that many
ticks. -/
def waitForReady (rp : String) (eps : List String) :
    List FetchResult → Option LoopResult
  | [] => none
  | fr :: rest =>
    match waitTick rp eps fr with
    | TickOutcome.ready => some LoopResult.ready
    | TickOutcome.failedLogs logs => some (LoopResult.exitOnLogs logs)
    | TickOutcome.fatal err rc => some (LoopResult.exitOnFetch err rc)
    | TickOutcome.waiting => waitForReady rp eps rest

/-- Process exit code implied by a loop result: both exit paths call
`sys.exit(1)`; the ready path returns normally. -/
def loopExitCode : LoopResult → Option Nat
  | LoopResult.ready => none
  | LoopResult.exitOnLogs _ => some 1
  | LoopResult.exitOnFetch _ _ => some 1

/-- Log text surfaced via `logger.error(logs)` on the failure-marker path. -/
def surfacedLogs : LoopResult → Option String
  | LoopResult.exitOnLogs logs => some logs
  | _ => none

/-- The `time.sleep(1)` at the top of every poll iteration. -/
def pollSleepSeconds : Nat := 1

/-- `PostgresManager.get_ready_log_pattern`. -/
def postgresReadyPattern : String :=
  "database system is ready to accept connections"

/-- `PostgresManager.get_error_log_patterns`. -/
def postgresErrorPatterns : List String :=
  ["FATAL:", "ERROR:", "could not"]

/-- `Neo4jManager.get_ready_log_pattern`. -/
def neo4jReadyPattern : String :=
  "Remote interface available at http://localhost:7474/"

/-- `Neo4jManager.get_error_log_patterns`. -/
def neo4jErrorPatterns : List String :=
  ["Error"]

/-- `BloodhoundManager.get_ready_log_pattern`. -/
def bloodhoundReadyPattern : String :=
  "Server started successfully"

/-- `BloodhoundManager.get_error_log_patterns`. -/
def bloodhoundErrorPatterns : List String :=
  ["\"level\":\"error\"", "\"level\":\"fatal\"", "Error: "]

/-- A fetch that keeps the detector polling per claim C3: the fetch
completed with return code 0 and stdout containing neither the success
marker nor any failure marker. -/
def quietFetch (rp : String) (eps : List String) : FetchResult → Bool
  | FetchResult.completed rc out _ =>
      rc == 0 && !strContains out rp && !(eps.any fun p => strContains out p)
  | FetchResult.exn => false

/-- Module constant `NETWORK_NAME`. -/
def NETWORK_NAME : String := "DockerHound-CE-network"

/-- Module constant `BLOODHOUND_CONTAINER`. -/
def BLOODHOUND_CONTAINER : String := "DockerHound-CE_BH"

/-- Module constant `NEO4J_CONTAINER`. -/
def NEO4J_CONTAINER : String := "DockerHound-CE_Neo4j"

/-- Module constant `POSTGRES_CONTAINER`. -/
def POSTGRES_CONTAINER : String := "DockerHound-CE_PSQL"

/-- The fields of the `Config` dataclass that the verified claims depend on
(credentials, images and derived volume paths are carried by the same record
in the source but play no role in any claim). -/
structure ConfigR where
  backend : String
  port : Int
  boltPort : Option Int
  workspace : String
  network : String
  bloodhoundContainer : String
  neo4jContainer : String
  postgresContainer : String
  deriving DecidableEq

/-- Result of `Config.create`: a configuration record, or process
termination via `sys.exit(code)` inside one of the validators. -/
inductive CreateResult where
  | ok (cfg : ConfigR)
  | exit (code : Nat)
  deriving DecidableEq

/-- `Config._validate_port`'s range test `1 <= port <= 65535` (the
below-1024 branch only logs a warning and does not exit). -/
def portInRange (port : Int) : Bool :=
  1 ≤ port && port ≤ 65535

/-- One character of the `[a-zA-Z0-9_-]` class used by
`Config._validate_workspace` (`Char.isAlpha`/`Char.isDigit` are the same
ASCII ranges as the regex's `a-zA-Z`/`0-9`). -/
def workspaceCharOk (c : Char) : Bool :=
  c.isAlpha || c.isDigit || c == '_' || c == '-'

/-- Nonempty run of workspace characters (the `+` of the regex). -/
def workspaceBody (cs : List Char) : Bool :=
  !cs.isEmpty && cs.all workspaceCharOk

/-- `Config._validate_workspace`'s `re.match(r"^[a-zA-Z0-9_-]+$", workspace)`
as a whole-string test; Python's `$` also matches just before one trailing
newline, which the second disjunct reproduces. -/
def validWorkspace (s : String) : Bool :=
  workspaceBody s.data ||
    (match s.data.getLast? with
     | some c => c == '\n' && workspaceBody s.data.dropLast
     | none => false)

/-- Tail of `Config.create` after the port checks, in source order:
workspace charset check, then the data-directory access checks
(`_validate_data_directory`, abstracted as the filesystem fact `dirOk`),
then the free-disk-space check (`_validate_disk_space`, abstracted as
`diskOk`); each failure is `sys.exit(1)`.  On success the record is built
with the module-constant network and container names. -/
def configFinish (backend : String) (port : Int) (workspace : String)
    (boltPort : Option Int) (dirOk diskOk : Bool) : CreateResult :=
  if validWorkspace workspace = false then CreateResult.exit 1
  else if dirOk = false then CreateResult.exit 1
  else if diskOk = false then CreateResult.exit 1
  else CreateResult.ok
    { backend := backend, port := port, boltPort := boltPort,
      workspace := workspace, network := NETWORK_NAME,
      bloodhoundContainer := BLOODHOUND_CONTAINER,
      neo4jContainer := NEO4J_CONTAINER,
      postgresContainer := POSTGRES_CONTAINER }

/-- `Config.create`: the `PORT`/`WORKSPACE` environment overrides are
applied first, then the validators run in source order — main port range,
bolt-port range, bolt-port equal to main port, workspace charset, data
directory, disk space.  All of this happens before the orchestrator object
exists, so no backend command can have been issued yet. -/
def configCreate (backend : String) (cliPort : Int) (cliWorkspace : String)
    (boltPort : Option Int) (envPort : Option Int) (envWorkspace : Option String)
    (dirOk diskOk : Bool) : CreateResult :=
  let port := envPort.getD cliPort
  let workspace := envWorkspace.getD cliWorkspace
  if portInRange port = false then CreateResult.exit 1
  else
    match boltPort with
    | some bp =>
      if portInRange bp = false then CreateResult.exit 1
      else if bp = port then CreateResult.exit 1
      else configFinish backend port workspace boltPort dirOk diskOk
    | none => configFinish backend port workspace boltPort dirOk diskOk

/-- Abstract record of the externally visible operations the orchestrator
issues, in their issue order: the directory creations of
`setup_directories`, the network creation of `NetworkManager.setup`, a
`<backend> run` per container, a readiness wait reaching READY, the
password-expiry `exec psql`, the success panel, the blocking log attach,
and the teardown commands (`stop -i` per container, `network rm`). -/
inductive Event where
  | mkdirs
  | ensureNetwork (name : String)
  | runContainer (name : String)
  | readyWait (name : String)
  | sqlExpiry
  | summary
  | attachLogs
  | stop (name : String)
  | networkRm (name : String)
  deriving DecidableEq

/-- Mutable state the cleanup path reads: `BloodHoundCE._started_containers`
and `NetworkManager._created_network`. -/
structure CleanupState where
  startedContainers : List String
  createdNetwork : Bool
  deriving DecidableEq

/-- One iteration of the `for container in containers` loop of
`BloodHoundCE._stop_containers`: a `stop -i` command is issued only when the
name is in `_started_containers`, and the name is then removed from the list
(Python's `list.remove` drops the first occurrence, as `List.erase` does).
Exceptions from the stop command are caught and the loop continues. -/
def stopOne (name : String) (st : CleanupState) : CleanupState × List Event :=
  if name ∈ st.startedContainers then
    ({ st with startedContainers := st.startedContainers.erase name },
     [Event.stop name])
  else (st, [])

/-- The `for` loop of `_stop_containers` over a list of container names. -/
def stopList (names : List String) (st : CleanupState) :
    CleanupState × List Event :=
  match names with
  | [] => (st, [])
  | n :: rest =>
    let s1 := stopOne n st
    let s2 := stopList rest s1.1
    (s2.1, s1.2 ++ s2.2)

/-- `BloodHoundCE._stop_containers`: the loop runs over the fixed list
BloodHound, Neo4j, Postgres (reverse creation order). -/
def stopContainers (cfg : ConfigR) (st : CleanupState) :
    CleanupState × List Event :=
  stopList [cfg.bloodhoundContainer, cfg.neo4jContainer, cfg.postgresContainer] st

/-- `NetworkManager.cleanup`: issues `network rm` only when
`_created_network` is set; the flag is not cleared afterwards, and any
exception from the command is swallowed. -/
def networkCleanup (cfg : ConfigR) (st : CleanupState) :
    CleanupState × List Event :=
  if st.createdNetwork then (st, [Event.networkRm cfg.network])
  else (st, [])

/-- `BloodHoundCE.cleanup`: `_stop_containers()` first, then
`network_manager.cleanup()` on the resulting state.  Every command inside
runs with `check=False` or under a swallowing handler, so the function
itself never raises — in this embedding, it is total. -/
def cleanup (cfg : ConfigR) (st : CleanupState) : CleanupState × List Event :=
  ((networkCleanup cfg (stopContainers cfg st).1).1,
   (stopContainers cfg st).2 ++ (networkCleanup cfg (stopContainers cfg st).1).2)

/-- Environment facts `BloodHoundCE.run` reacts to: whether each external
step succeeds (a `false` means the step raises, which aborts the sequence),
and the fetch schedules consumed by the two readiness waits. -/
structure RunEnv where
  mkdirsOk : Bool
  networkOk : Bool
  postgresOk : Bool
  neo4jOk : Bool
  neo4jFetches : List FetchResult
  bloodhoundOk : Bool
  bloodhoundFetches : List FetchResult
  sqlOk : Bool
  deriving DecidableEq

/-- The step sequence of the `try` body of `BloodHoundCE.run`: each step's
command is issued, and a failure (exception or a readiness wait that exits
or never returns) stops the sequence there — no later step is issued.  The
returned flag is `true` exactly when the body ran to completion (reached the
log attach).  Teardown after a failure is modelled separately by
`cleanup`. -/
def runSteps (cfg : ConfigR) (env : RunEnv) : List Event × Bool :=
  let t1 := [Event.mkdirs]
  if env.mkdirsOk = false then (t1, false) else
  let t2 := t1 ++ [Event.ensureNetwork cfg.network]
  if env.networkOk = false then (t2, false) else
  let t3 := t2 ++ [Event.runContainer cfg.postgresContainer]
  if env.postgresOk = false then (t3, false) else
  let t4 := t3 ++ [Event.runContainer cfg.neo4jContainer]
  if env.neo4jOk = false then (t4, false) else
  match waitForReady neo4jReadyPattern neo4jErrorPatterns env.neo4jFetches with
  | some LoopResult.ready =>
    let t6 := t4 ++ [Event.readyWait cfg.neo4jContainer,
                     Event.runContainer cfg.bloodhoundContainer]
    if env.bloodhoundOk = false then (t6, false) else
    match waitForReady bloodhoundReadyPattern bloodhoundErrorPatterns
        env.bloodhoundFetches with
    | some LoopResult.ready =>
      let t8 := t6 ++ [Event.readyWait cfg.bloodhoundContainer, Event.sqlExpiry]
      if env.sqlOk = false then (t8, false) else
      (t8 ++ [Event.summary, Event.attachLogs], true)
    | _ => (t6, false)
  | _ => (t4, false)

/-- The complete happy-path step sequence of run mode. -/
def fullRunSequence (cfg : ConfigR) : List Event :=
  [Event.mkdirs,
   Event.ensureNetwork cfg.network,
   Event.runContainer cfg.postgresContainer,
   Event.runContainer cfg.neo4jContainer,
   Event.readyWait cfg.neo4jContainer,
   Event.runContainer cfg.bloodhoundContainer,
   Event.readyWait cfg.bloodhoundContainer,
   Event.sqlExpiry,
   Event.summary,
   Event.attachLogs]

/-- `main` in run mode: `Config.create` runs to completion before the
orchestrator object is even constructed, so a validation `sys.exit(1)`
leaves no orchestrator step issued at all. -/
def mainTrace (backend : String) (cliPort : Int) (cliWorkspace : String)
    (boltPort : Option Int) (envPort : Option Int) (envWorkspace : Option String)
    (dirOk diskOk : Bool) (env : RunEnv) : List Event :=
  match configCreate backend cliPort cliWorkspace boltPort envPort envWorkspace
      dirOk diskOk with
  | CreateResult.exit _ => []
  | CreateResult.ok cfg => (runSteps cfg env).1

/-- Per-manager state set by `ContainerManager.__init__`: the only field the
readiness poll reads back is `self.timestamp`. -/
structure ManagerState where
  timestamp : String
  deriving DecidableEq

/-- `ContainerManager.__init__` evaluated when the orchestrator is
constructed: it records `str(int(time.time()))`, the wall-clock second at
construction time. -/
def containerManagerInit (now : Nat) : ManagerState :=
  { timestamp := toString now }

/-- `ContainerManager.start`: issues the run command and returns.  It reads
no clock and writes no field; `nowAtStart` records the wall-clock moment at
which `start` is invoked, which the source code does not observe. -/
def managerStart (st : ManagerState) (_nowAtStart : Nat) (cmd : List String) :
    ManagerState × List String :=
  (st, cmd)

/-- The log-fetch argument vector built inside `wait_for_ready`:
`[backend, "logs", "--since", self.timestamp, container_name]`. -/
def logsFetchCommand (backend : String) (st : ManagerState) (name : String) :
    List String :=
  [backend, "logs", "--since", st.timestamp, name]

/-! ### Helper lemmas about the cleanup loop -/

lemma stopOne_createdNetwork (n : String) (st : CleanupState) :
    (stopOne n st).1.createdNetwork = st.createdNetwork := by
  unfold stopOne
  split <;> rfl

lemma stopOne_mem_started {n m : String} {st : CleanupState}
    (h : m ∈ (stopOne n st).1.startedContainers) : m ∈ st.startedContainers := by
  unfold stopOne at h
  split at h
  · exact List.mem_of_mem_erase h
  · exact h

lemma stopOne_nodup {n : String} {st : CleanupState}
    (h : st.startedContainers.Nodup) : (stopOne n st).1.startedContainers.Nodup := by
  unfold stopOne
  split
  · exact h.erase n
  · exact h

lemma stopOne_actions {n m : String} {st : CleanupState}
    (h : Event.stop m ∈ (stopOne n st).2) :
    m = n ∧ m ∈ st.startedContainers := by
  unfold stopOne at h
  split at h
  · simp at h
    subst h
    constructor
    · rfl
    · assumption
  · simp at h

lemma stopOne_self_removed {n : String} {st : CleanupState}
    (h : st.startedContainers.Nodup) : n ∉ (stopOne n st).1.startedContainers := by
  unfold stopOne
  split
  · intro hmem
    exact ((List.Nodup.mem_erase_iff h).1 hmem).1 rfl
  · assumption

lemma stopList_createdNetwork (names : List String) (st : CleanupState) :
    (stopList names st).1.createdNetwork = st.createdNetwork := by
  induction names generalizing st with
  | nil => rfl
  | cons n rest ih =>
    simp only [stopList]
    rw [ih, stopOne_createdNetwork]

lemma stopList_mem_started {names : List String} {m : String} {st : CleanupState}
    (h : m ∈ (stopList names st).1.startedContainers) : m ∈ st.startedContainers := by
  induction names generalizing st with
  | nil => exact h
  | cons n rest ih => exact stopOne_mem_started (ih h)

lemma stopList_nodup {names : List String} {st : CleanupState}
    (h : st.startedContainers.Nodup) : (stopList names st).1.startedContainers.Nodup := by
  induction names generalizing st with
  | nil => exact h
  | cons n rest ih => exact ih (stopOne_nodup h)

lemma stopList_actions {names : List String} {m : String} {st : CleanupState}
    (h : Event.stop m ∈ (stopList names st).2) : m ∈ st.startedContainers := by
  induction names generalizing st with
  | nil => simp [stopList] at h
  | cons n rest ih =>
    simp only [stopList, List.mem_append] at h
    rcases h with h | h
    · exact (stopOne_actions h).2
    · exact stopOne_mem_started (ih h)

lemma stopList_removes {names : List String} {m : String} {st : CleanupState}
    (hd : st.startedContainers.Nodup) (hm : m ∈ names) :
    m ∉ (stopList names st).1.startedContainers := by
  induction names generalizing st with
  | nil => simp at hm
  | cons n rest ih =>
    rcases List.mem_cons.1 hm with h | h
    · subst h
      intro hmem
      exact stopOne_self_removed hd (stopList_mem_started hmem)
    · exact ih (stopOne_nodup hd) h

lemma stopOne_skip {n : String} {st : CleanupState}
    (h : n ∉ st.startedContainers) : stopOne n st = (st, []) := by
  unfold stopOne
  split
  · exact absurd (by assumption) h
  · rfl

lemma stopList_skip {names : List String} {st : CleanupState}
    (h : ∀ n ∈ names, n ∉ st.startedContainers) : stopList names st = (st, []) := by
  induction names with
  | nil => rfl
  | cons n rest ih =>
    have h1 : stopOne n st = (st, []) := stopOne_skip (h n (by simp))
    simp only [stopList, h1]
    rw [ih (fun x hx => h x (by simp [hx]))]
    rfl

lemma networkCleanup_state (cfg : ConfigR) (st : CleanupState) :
    (networkCleanup cfg st).1 = st := by
  unfold networkCleanup
  split <;> rfl

lemma networkCleanup_actions {cfg : ConfigR} {st : CleanupState} {m : String}
    (h : Event.networkRm m ∈ (networkCleanup cfg st).2) :
    st.createdNetwork = true := by
  unfold networkCleanup at h
  split at h
  · assumption
  · simp at h

lemma stopOne_only_stops {n : String} {st : CleanupState} {e : Event}
    (h : e ∈ (stopOne n st).2) : e = Event.stop n := by
  unfold stopOne at h
  split at h
  · simpa using h
  · simp at h

lemma networkCleanup_no_stop {cfg : ConfigR} {st : CleanupState} {m : String} :
    Event.stop m ∉ (networkCleanup cfg st).2 := by
  unfold networkCleanup
  split <;> simp

lemma stopList_no_networkRm {names : List String} {st : CleanupState} {m : String} :
    Event.networkRm m ∉ (stopList names st).2 := by
  induction names generalizing st with
  | nil => simp [stopList]
  | cons n rest ih =>
    simp only [stopList, List.mem_append]
    intro h
    rcases h with h | h
    · have := stopOne_only_stops h
      simp at this
    · exact ih h

lemma stopContainers_createdNetwork (cfg : ConfigR) (st : CleanupState) :
    (stopContainers cfg st).1.createdNetwork = st.createdNetwork :=
  stopList_createdNetwork _ st

lemma cleanup_state (cfg : ConfigR) (st : CleanupState) :
    (cleanup cfg st).1 = (stopContainers cfg st).1 := by
  unfold cleanup
  rw [networkCleanup_state]

lemma cleanup_second_skip (cfg : ConfigR) (st : CleanupState)
    (h : st.startedContainers.Nodup) :
    stopContainers cfg (cleanup cfg st).1 = ((cleanup cfg st).1, []) := by
  apply stopList_skip
  intro n hn
  rw [cleanup_state]
  exact stopList_removes h hn

/-! ### The claims -/

/-- C1: On every poll tick whose log fetch succeeded (return code 0) and
whose captured log text contains the service's success marker, the tick
resolves to READY — regardless of the failure-marker list, because
`wait_for_ready` tests the success marker before the failure markers — and
the surrounding loop exits successfully (no error exit code). -/
theorem success_marker_checked_first (rp : String) (eps : List String)
    (logs stderrText : String) (rest : List FetchResult)
    (h : strContains logs rp = true) :
    waitTick rp eps (FetchResult.completed 0 logs stderrText) =
      TickOutcome.ready ∧
    waitForReady rp eps (FetchResult.completed 0 logs stderrText :: rest) =
      some LoopResult.ready ∧
    loopExitCode LoopResult.ready = none := by
  refine ⟨?_, ?_, rfl⟩ <;> simp [waitTick, waitForReady, h]

/-- C1 witness: the BloodHound markers on a log text containing both the
success marker and the `"level":"error"` failure marker still yield READY
on that tick. -/
theorem success_marker_checked_first_witness :
    (bloodhoundErrorPatterns.any fun p =>
      strContains "starting...\nServer started successfully\n\"level\":\"error\" extra" p) = true ∧
    waitForReady bloodhoundReadyPattern bloodhoundErrorPatterns
      [FetchResult.completed 0
        "starting...\nServer started successfully\n\"level\":\"error\" extra" ""] =
      some LoopResult.ready :=
  ⟨by decide,
   (success_marker_checked_first bloodhoundReadyPattern bloodhoundErrorPatterns
      "starting...\nServer started successfully\n\"level\":\"error\" extra" "" []
      (by decide)).2.1⟩

/-- C2: On every poll tick whose log fetch succeeded with text containing at
least one failure marker and not the success marker, the detector reaches
the terminal FAILED outcome: the loop exits with the full captured log text
surfaced and process exit code 1. -/
theorem failure_marker_terminal (rp : String) (eps : List String)
    (logs stderrText : String) (rest : List FetchResult)
    (hs : strContains logs rp = false)
    (hf : (eps.any fun p => strContains logs p) = true) :
    waitTick rp eps (FetchResult.completed 0 logs stderrText) =
      TickOutcome.failedLogs logs ∧
    waitForReady rp eps (FetchResult.completed 0 logs stderrText :: rest) =
      some (LoopResult.exitOnLogs logs) ∧
    loopExitCode (LoopResult.exitOnLogs logs) = some 1 ∧
    surfacedLogs (LoopResult.exitOnLogs logs) = some logs := by
  refine ⟨?_, ?_, rfl, rfl⟩ <;> simp [waitTick, waitForReady, hs, hf]

/-- C2 witness: a Postgres log containing `FATAL:` and no success marker
terminates the wait with the log text surfaced. -/
theorem failure_marker_terminal_witness :
    waitForReady postgresReadyPattern postgresErrorPatterns
      [FetchResult.completed 0 "FATAL: data directory has wrong ownership" ""] =
      some (LoopResult.exitOnLogs "FATAL: data directory has wrong ownership") :=
  (failure_marker_terminal postgresReadyPattern postgresErrorPatterns
    "FATAL: data directory has wrong ownership" "" []
    (by decide) (by decide)).2.1

/-- C3: the poll sleeps a fixed 1 second between ticks, and on any finite
schedule of successful fetches whose texts contain neither marker the loop
has not terminated (there is no timeout or deadline in the code, so this
holds for schedules of every length: the loop never terminates on such
input). -/
theorem no_marker_waits_forever (rp : String) (eps : List String)
    (frs : List FetchResult)
    (h : ∀ fr ∈ frs, quietFetch rp eps fr = true) :
    pollSleepSeconds = 1 ∧ waitForReady rp eps frs = none := by
  refine ⟨rfl, ?_⟩
  induction frs with
  | nil => rfl
  | cons fr rest ih =>
    have hfr := h fr (by simp)
    have hrest := ih (fun x hx => h x (by simp [hx]))
    cases fr with
    | exn => simp [quietFetch] at hfr
    | completed rc out err =>
      simp only [quietFetch, Bool.and_eq_true, beq_iff_eq, Bool.not_eq_true'] at hfr
      obtain ⟨⟨h0, h1⟩, h2⟩ := hfr
      subst h0
      simp [waitForReady, waitTick, h1, h2, hrest]

/-- C3 witness: two markerless Neo4j ticks leave the loop still polling. -/
theorem no_marker_waits_forever_witness :
    waitForReady neo4jReadyPattern neo4jErrorPatterns
      [FetchResult.completed 0 "Starting..." "",
       FetchResult.completed 0 "Bolt enabled on 0.0.0.0:7687." ""] = none :=
  (no_marker_waits_forever neo4jReadyPattern neo4jErrorPatterns
    [FetchResult.completed 0 "Starting..." "",
     FetchResult.completed 0 "Bolt enabled on 0.0.0.0:7687." ""]
    (by decide)).2

/-- C4: the per-service readiness markers are exactly the literal substrings
of §4.2; each service's detector consults its single success string and its
listed failure strings and nothing else. -/
theorem service_marker_literals :
    postgresReadyPattern = "database system is ready to accept connections" ∧
    postgresErrorPatterns = ["FATAL:", "ERROR:", "could not"] ∧
    neo4jReadyPattern = "Remote interface available at http://localhost:7474/" ∧
    neo4jErrorPatterns = ["Error"] ∧
    bloodhoundReadyPattern = "Server started successfully" ∧
    bloodhoundErrorPatterns = ["\"level\":\"error\"", "\"level\":\"fatal\"", "Error: "] :=
  ⟨rfl, rfl, rfl, rfl, rfl, rfl⟩

/-- C5 counterexample: a log fetch that completes with the non-zero exit
code and stderr that the backend produces when the container does not exist
is NOT swallowed — it takes the fatal path (stderr reported, exit 1), so the
claim that the fatal path is reserved for codes "distinct from a missing
container" is false: the code never distinguishes that case. -/
theorem missing_container_fetch_fatal_cex :
    waitForReady postgresReadyPattern postgresErrorPatterns
      [FetchResult.completed 125 ""
        "Error: no container with name or ID DockerHound-CE_PSQL found: no such container"] =
      some (LoopResult.exitOnFetch
        "Error: no container with name or ID DockerHound-CE_PSQL found: no such container"
        125) ∧
    loopExitCode (LoopResult.exitOnFetch
      "Error: no container with name or ID DockerHound-CE_PSQL found: no such container"
      125) = some 1 := by
  constructor
  · rfl
  · rfl

/-- C5 (amended): only an exception raised while invoking the log-fetch
subprocess (e.g. the backend binary missing) is swallowed, and a schedule of
any number of such ticks leaves the loop still retrying; every fetch that
completes with a non-zero exit code — a missing container's included —
takes the fatal path: its stderr is reported and the process exits 1. -/
theorem fetch_exception_swallowed (rp : String) (eps : List String)
    (frs : List FetchResult) (h : ∀ fr ∈ frs, fr = FetchResult.exn)
    (rc : Int) (out err : String) (hrc : ¬rc = 0) (rest : List FetchResult) :
    waitForReady rp eps frs = none ∧
    waitTick rp eps (FetchResult.completed rc out err) =
      TickOutcome.fatal err rc ∧
    waitForReady rp eps (FetchResult.completed rc out err :: rest) =
      some (LoopResult.exitOnFetch err rc) ∧
    loopExitCode (LoopResult.exitOnFetch err rc) = some 1 := by
  refine ⟨?_, ?_, ?_, rfl⟩
  · induction frs with
    | nil => rfl
    | cons fr rest2 ih =>
      have hfr := h fr (by simp)
      subst hfr
      simp [waitForReady, waitTick, ih (fun x hx => h x (by simp [hx]))]
  · simp [waitTick, hrc]
  · simp [waitForReady, waitTick, hrc]

/-- C5 witness: three fetch exceptions keep the Neo4j wait polling, while a
completed fetch with exit code 125 is fatal. -/
theorem fetch_exception_swallowed_witness :
    waitForReady neo4jReadyPattern neo4jErrorPatterns
      [FetchResult.exn, FetchResult.exn, FetchResult.exn] = none ∧
    waitForReady neo4jReadyPattern neo4jErrorPatterns
      [FetchResult.completed 125 "" "no such container"] =
      some (LoopResult.exitOnFetch "no such container" 125) := by
  have h := fetch_exception_swallowed neo4jReadyPattern neo4jErrorPatterns
    [FetchResult.exn, FetchResult.exn, FetchResult.exn] (by decide)
    125 "" "no such container" (by decide) []
  exact ⟨h.1, h.2.2.1⟩

/-- C6: cleanup is idempotent and ownership-respecting.  On any state whose
started-container list has no duplicates (the orchestrator appends each
container at most once): every `stop` of the first call names a container
this run started; a second call — e.g. from the signal handler after the
exception handler — issues no `stop` at all and leaves the state fixed; and
`network rm` is issued (on either call) only when this run created the
network.  No path raises: every command runs with `check=False` or inside a
swallowing handler, and the embedding is a total function. -/
theorem cleanup_idempotent_ownership (cfg : ConfigR) (st : CleanupState)
    (h : st.startedContainers.Nodup) :
    (∀ n, Event.stop n ∈ (cleanup cfg st).2 → n ∈ st.startedContainers) ∧
    (∀ n, Event.stop n ∉ (cleanup cfg (cleanup cfg st).1).2) ∧
    (cleanup cfg (cleanup cfg st).1).1 = (cleanup cfg st).1 ∧
    (∀ n, Event.networkRm n ∈ (cleanup cfg st).2 → st.createdNetwork = true) ∧
    (∀ n, Event.networkRm n ∈ (cleanup cfg (cleanup cfg st).1).2 →
      st.createdNetwork = true) := by
  have hc1 : ∀ n, Event.stop n ∈ (cleanup cfg st).2 → n ∈ st.startedContainers := by
    intro n hn
    simp only [cleanup, List.mem_append] at hn
    rcases hn with hn | hn
    · exact stopList_actions hn
    · exact absurd hn networkCleanup_no_stop
  have hrm1 : ∀ n, Event.networkRm n ∈ (cleanup cfg st).2 →
      st.createdNetwork = true := by
    intro n hn
    simp only [cleanup, List.mem_append] at hn
    rcases hn with hn | hn
    · exact absurd hn stopList_no_networkRm
    · have h2 := networkCleanup_actions hn
      rwa [stopContainers_createdNetwork] at h2
  have hskip0 := cleanup_second_skip cfg st h
  have hcreated : (cleanup cfg st).1.createdNetwork = st.createdNetwork := by
    rw [cleanup_state, stopContainers_createdNetwork]
  generalize hst1 : (cleanup cfg st).1 = st1 at hskip0 hcreated ⊢
  have hfix : cleanup cfg st1 = (st1, (networkCleanup cfg st1).2) := by
    unfold cleanup
    rw [hskip0]
    simp [networkCleanup_state]
  refine ⟨hc1, ?_, ?_, hrm1, ?_⟩
  · intro n
    rw [hfix]
    exact networkCleanup_no_stop
  · rw [hfix]
  · intro n hn
    rw [hfix] at hn
    have h2 := networkCleanup_actions hn
    rwa [hcreated] at h2

/-- The configuration record produced by `Config.create` under default
arguments. -/
def sampleConfig : ConfigR :=
  { backend := "podman", port := 8181, boltPort := none, workspace := "default",
    network := NETWORK_NAME, bloodhoundContainer := BLOODHOUND_CONTAINER,
    neo4jContainer := NEO4J_CONTAINER, postgresContainer := POSTGRES_CONTAINER }

/-- C6 witness: after a full run (all three containers started, network
created), a second cleanup leaves the state unchanged. -/
theorem cleanup_idempotent_ownership_witness :
    (cleanup sampleConfig
        (cleanup sampleConfig
          { startedContainers :=
              [POSTGRES_CONTAINER, NEO4J_CONTAINER, BLOODHOUND_CONTAINER],
            createdNetwork := true }).1).1 =
      (cleanup sampleConfig
        { startedContainers :=
            [POSTGRES_CONTAINER, NEO4J_CONTAINER, BLOODHOUND_CONTAINER],
          createdNetwork := true }).1 :=
  (cleanup_idempotent_ownership sampleConfig
    { startedContainers :=
        [POSTGRES_CONTAINER, NEO4J_CONTAINER, BLOODHOUND_CONTAINER],
      createdNetwork := true } (by decide)).2.2.1

/-- C7: validation rejects port 0, port 70000 and workspace "../etc" with
`sys.exit(1)`, each before any orchestrator step (the run-mode trace is
empty, so no container, network or directory operation was issued), and
accepts workspace "my-workspace_1". -/
theorem config_validation_bounds :
    (∀ ws bolt envWs dirOk diskOk renv,
      configCreate "podman" 0 ws bolt none envWs dirOk diskOk =
        CreateResult.exit 1 ∧
      mainTrace "podman" 0 ws bolt none envWs dirOk diskOk renv = []) ∧
    (∀ ws bolt envWs dirOk diskOk renv,
      configCreate "podman" 70000 ws bolt none envWs dirOk diskOk =
        CreateResult.exit 1 ∧
      mainTrace "podman" 70000 ws bolt none envWs dirOk diskOk renv = []) ∧
    (∀ port bolt dirOk diskOk renv,
      configCreate "podman" port "../etc" bolt none none dirOk diskOk =
        CreateResult.exit 1 ∧
      mainTrace "podman" port "../etc" bolt none none dirOk diskOk renv = []) ∧
    configCreate "podman" 8181 "my-workspace_1" none none none true true =
      CreateResult.ok
        { backend := "podman", port := 8181, boltPort := none,
          workspace := "my-workspace_1", network := NETWORK_NAME,
          bloodhoundContainer := BLOODHOUND_CONTAINER,
          neo4jContainer := NEO4J_CONTAINER,
          postgresContainer := POSTGRES_CONTAINER } := by
  refine ⟨?_, ?_, ?_, by decide⟩
  · intro ws bolt envWs dirOk diskOk renv
    have h : configCreate "podman" 0 ws bolt none envWs dirOk diskOk =
        CreateResult.exit 1 := by
      unfold configCreate
      simp [portInRange]
    exact ⟨h, by simp [mainTrace, h]⟩
  · intro ws bolt envWs dirOk diskOk renv
    have h : configCreate "podman" 70000 ws bolt none envWs dirOk diskOk =
        CreateResult.exit 1 := by
      unfold configCreate
      simp [portInRange]
    exact ⟨h, by simp [mainTrace, h]⟩
  · intro port bolt dirOk diskOk renv
    have hws : validWorkspace "../etc" = false := by decide
    have h : configCreate "podman" port "../etc" bolt none none dirOk diskOk =
        CreateResult.exit 1 := by
      cases bolt with
      | none =>
        simp only [configCreate, Option.getD_none]
        split
        · rfl
        · unfold configFinish
          simp [hws]
      | some bp =>
        simp only [configCreate, Option.getD_none]
        split
        · rfl
        · split
          · rfl
          · split
            · rfl
            · unfold configFinish
              simp [hws]
    exact ⟨h, by simp [mainTrace, h]⟩

/-- C8: the run-mode steps are exactly the fixed sequence, gated on success:
every possible trace of `BloodHoundCE.run` is a prefix of the full
sequence; the full sequence is reached exactly when every step succeeded;
and whenever the trace goes past the Neo4j wait (length ≥ 5) the Neo4j
detector really reached READY, so the BloodHound run command (position 6)
is never issued before that. -/
theorem run_mode_step_order (cfg : ConfigR) (env : RunEnv) :
    (∃ rest, (runSteps cfg env).1 ++ rest = fullRunSequence cfg) ∧
    ((runSteps cfg env).2 = true →
      (runSteps cfg env).1 = fullRunSequence cfg) ∧
    (5 ≤ (runSteps cfg env).1.length →
      waitForReady neo4jReadyPattern neo4jErrorPatterns env.neo4jFetches =
        some LoopResult.ready) ∧
    fullRunSequence cfg =
      [Event.mkdirs,
       Event.ensureNetwork cfg.network,
       Event.runContainer cfg.postgresContainer,
       Event.runContainer cfg.neo4jContainer,
       Event.readyWait cfg.neo4jContainer,
       Event.runContainer cfg.bloodhoundContainer,
       Event.readyWait cfg.bloodhoundContainer,
       Event.sqlExpiry,
       Event.summary,
       Event.attachLogs] := by
  refine ⟨?_, ?_, ?_, rfl⟩
  · unfold runSteps
    split
    · exact ⟨_, rfl⟩
    · split
      · exact ⟨_, rfl⟩
      · split
        · exact ⟨_, rfl⟩
        · split
          · exact ⟨_, rfl⟩
          · split
            · split
              · exact ⟨_, rfl⟩
              · split
                · split
                  · exact ⟨_, rfl⟩
                  · exact ⟨_, rfl⟩
                · exact ⟨_, rfl⟩
            · exact ⟨_, rfl⟩
  · unfold runSteps
    split
    · intro hfl; cases hfl
    · split
      · intro hfl; cases hfl
      · split
        · intro hfl; cases hfl
        · split
          · intro hfl; cases hfl
          · split
            · split
              · intro hfl; cases hfl
              · split
                · split
                  · intro hfl; cases hfl
                  · intro _; rfl
                · intro hfl; cases hfl
            · intro hfl; cases hfl
  · unfold runSteps
    split
    · intro hl; simp at hl
    · split
      · intro hl; simp at hl
      · split
        · intro hl; simp at hl
        · split
          · intro hl; simp at hl
          · split
            · intro _; assumption
            · intro hl; simp at hl

/-- A run environment where every step succeeds and both waits see their
success markers on the first tick. -/
def readyRunEnv : RunEnv :=
  { mkdirsOk := true, networkOk := true, postgresOk := true, neo4jOk := true,
    neo4jFetches := [FetchResult.completed 0 neo4jReadyPattern ""],
    bloodhoundOk := true,
    bloodhoundFetches := [FetchResult.completed 0 bloodhoundReadyPattern ""],
    sqlOk := true }

/-- C8 witness: in the all-success environment the trace is exactly the full
sequence, and having passed the Neo4j wait certifies the Neo4j detector
reached READY. -/
theorem run_mode_step_order_witness :
    (runSteps sampleConfig readyRunEnv).1 = fullRunSequence sampleConfig ∧
    waitForReady neo4jReadyPattern neo4jErrorPatterns readyRunEnv.neo4jFetches =
      some LoopResult.ready :=
  ⟨(run_mode_step_order sampleConfig readyRunEnv).2.1 (by decide),
   (run_mode_step_order sampleConfig readyRunEnv).2.2.1 (by decide)⟩

/-- C9 counterexample: with the manager constructed at wall-clock second 100
and `start()` invoked at second 105, the `--since` value passed to the log
fetch is "100" — the construction-time stamp from `__init__`, not the
moment `start()` issued the run command. -/
theorem since_timestamp_not_start_time_cex :
    logsFetchCommand "podman"
        (managerStart (containerManagerInit 100) 105 ["podman", "run"]).1
        NEO4J_CONTAINER =
      ["podman", "logs", "--since", "100", NEO4J_CONTAINER] ∧
    ¬("100" : String) = "105" := by
  constructor
  · decide
  · decide

/-- C9 (amended): the `--since` timestamp is recorded once, in
`ContainerManager.__init__` — which runs when the orchestrator is
constructed, before any `start()` — and `start()` neither reads a clock nor
updates the field.  Construction precedes every start, so the boundary still
excludes logs a previous run emitted before this program launched. -/
theorem since_timestamp_from_construction (now later : Nat) (cmd : List String)
    (st : ManagerState) (backend name : String) :
    (managerStart (containerManagerInit now) later cmd).1.timestamp =
      toString now ∧
    (managerStart st later cmd).1 = st ∧
    logsFetchCommand backend (containerManagerInit now) name =
      [backend, "logs", "--since", toString now, name] :=
  ⟨rfl, rfl, rfl⟩

/-- C10: a bolt port equal to the main port makes `Config.create` exit with
code 1 during validation, whatever the workspace or filesystem state, and
the run-mode trace is empty: no container, network or directory operation
was issued.  The spec never mentions this rejection. -/
theorem bolt_port_equal_rejected (backend : String) (port : Int) (ws : String)
    (envWs : Option String) (dirOk diskOk : Bool) (renv : RunEnv) :
    configCreate backend port ws (some port) none envWs dirOk diskOk =
      CreateResult.exit 1 ∧
    mainTrace backend port ws (some port) none envWs dirOk diskOk renv = [] := by
  have h : configCreate backend port ws (some port) none envWs dirOk diskOk =
      CreateResult.exit 1 := by
    simp only [configCreate, Option.getD_none]
    split
    · rfl
    · split
      · rfl
      · simp_all
  exact ⟨h, by simp [mainTrace, h]⟩

end Dockerhound
